import Mathlib

/-!
Verification development for the werr package (src/werr.go), a small Go
library for error annotation and HTTP error rendering.

The embedding models a non-nil Go error interface value as `ErrVal`:
  - `plain msg`        : an error with no `Unwrap` method and none of the four
                         werr capability interfaces (e.g. `errors.New(msg)` or
                         the `errorString` produced by `fmt.Errorf` without `%w`);
  - `wrapped msg cause`: the `wrapError` produced by `fmt.Errorf` when the
                         arguments contain one `%w` verb (its `Error()` is the
                         formatted text, its `Unwrap()` is `cause`); no
                         capability interfaces;
  - `detail code shw loc cause id` : a non-nil `*errDetail` with the five
                         struct fields; implements `ErrorCoder`, `ErrorShower`,
                         `ErrorIDer`, `ErrorLocer` and `Unwrap`;
  - `detailNil`        : a typed-nil `*errDetail` stored in a non-nil interface
                         value (dynamic type `*errDetail`, nil pointer).
A Go `error` interface value is `Option ErrVal`, with `none` the untyped nil.

Nondeterministic environment inputs are made explicit parameters:
  - `loc` stands for the string `fmt.Sprintf("%s:%v", file, line)` computed
    from `runtime.Caller(1)` at the construction site;
  - `id` stands for the string returned by `mkid()`;
  - for `mkid` itself, `r` stands for the value returned by `rand.Int63()`,
    a uniform value in `[0, 2^63)`.
Calling a method on a nil `*errDetail` receiver dereferences a nil pointer and
panics; functions that may do so return `Option` with `none` as the panic.
-/

namespace Werr

/-- Model of a non-nil Go error interface value (see the module docstring). -/
inductive ErrVal : Type where
  | plain (msg : String) : ErrVal
  | wrapped (msg : String) (cause : ErrVal) : ErrVal
  | detail (code : Int) (shw : String) (loc : String) (cause : ErrVal) (id : String) : ErrVal
  | detailNil : ErrVal
deriving DecidableEq

/-- Lowercase hex digit, used by Go `strconv` escaping inside `%q`. -/
def hexDigitL (n : Nat) : Char :=
  if n < 10 then Char.ofNat (48 + n) else Char.ofNat (87 + n)

/-- Escaping of one character as done by Go's `%q` verb (strconv.Quote):
backslash, double quote and the named control escapes, then `\x` with two
lowercase hex digits for the remaining control characters; printable
characters are kept as-is. -/
def goQuoteChar (c : Char) : String :=
  if c = '\\' then "\\\\"
  else if c = '"' then "\\\""
  else if c = Char.ofNat 7 then "\\a"
  else if c = Char.ofNat 8 then "\\b"
  else if c = Char.ofNat 9 then "\\t"
  else if c = Char.ofNat 10 then "\\n"
  else if c = Char.ofNat 11 then "\\v"
  else if c = Char.ofNat 12 then "\\f"
  else if c = Char.ofNat 13 then "\\r"
  else if c.toNat < 32 ∨ c.toNat = 127 then
    "\\x" ++ String.mk [hexDigitL (c.toNat / 16), hexDigitL (c.toNat % 16)]
  else String.mk [c]

/-- Go's `%q` of a string: double quotes around the escaped characters. -/
def goQuote (s : String) : String :=
  "\"" ++ String.join (s.data.map goQuoteChar) ++ "\""

/-- The `Error()` method of each modelled error value.
`plain` and `wrapped` return their message; a non-nil `*errDetail` formats
`"errDetail: id=%q, code=%d, show=%q, loc=%q, err: %s"` with
`e.id, e.code, e.show, e.loc, e.err.Error()` (src/werr.go lines 59-68);
calling `Error()` on a typed-nil `*errDetail` dereferences `e.err` on a nil
receiver and panics, modelled as `none`. -/
def errString : ErrVal → Option String
  | .plain m => some m
  | .wrapped m _ => some m
  | .detail c s l e i =>
      (errString e).map (fun es =>
        "errDetail: id=" ++ goQuote i ++ ", code=" ++ toString c ++
        ", show=" ++ goQuote s ++ ", loc=" ++ goQuote l ++ ", err: " ++ es)
  | .detailNil => none

/-- `errors.Unwrap` on a non-nil error value. Outer `none` is a panic:
`(*errDetail).Unwrap` on a nil receiver dereferences `e.err`. Inner `none`
means the value has no `Unwrap` method, so the chain ends. -/
def errUnwrap : ErrVal → Option (Option ErrVal)
  | .plain _ => some none
  | .wrapped _ c => some (some c)
  | .detail _ _ _ e _ => some (some e)
  | .detailNil => none

/-- True exactly when the dynamic type of the value is `*errDetail`
(the Go type assertion `cause.(*errDetail)` succeeds), including the
typed-nil pointer. -/
def isDetailPtr : ErrVal → Bool
  | .detail _ _ _ _ _ => true
  | .detailNil => true
  | _ => false

/-- True exactly when the value is a non-nil `*errDetail`. -/
def isDetail : ErrVal → Bool
  | .detail _ _ _ _ _ => true
  | _ => false

/-- The `errors.As` walk shared by the four capability probes of
`WriteError`: `*errDetail` is the only type in this package implementing any
of `ErrorCoder`, `ErrorShower`, `ErrorIDer`, `ErrorLocer`, so each probe
finds the first `*errDetail` in the unwrap chain (or fails). Result:
`none` when no value of dynamic type `*errDetail` is in the chain;
`some none` when the first one found is a typed-nil pointer (any method call
on it panics); `some (some (code, shw, loc, cause, id))` when it is non-nil. -/
def asErrDetail : ErrVal → Option (Option (Int × String × String × ErrVal × String))
  | .plain _ => none
  | .wrapped _ c => asErrDetail c
  | .detail c s l e i => some (some (c, s, l, e, i))
  | .detailNil => some none

/-- Probing `ErrorCoder` via `errors.As` and calling `ErrorCode()`, which
substitutes 500 when the stored code is zero (src/werr.go lines 86-92).
`none` conflates "no provider in the chain" with the (never exercised)
nil-receiver panic. -/
def probeErrorCode (e : ErrVal) : Option Int :=
  match asErrDetail e with
  | some (some (c, _, _, _, _)) => some (if c = 0 then 500 else c)
  | _ => none

/-- Probing `ErrorShower` via `errors.As` and calling `ErrorShow()`. -/
def probeErrorShow (e : ErrVal) : Option String :=
  match asErrDetail e with
  | some (some (_, s, _, _, _)) => some s
  | _ => none

/-- Probing `ErrorIDer` via `errors.As` and calling `ErrorID()`. -/
def probeErrorID (e : ErrVal) : Option String :=
  match asErrDetail e with
  | some (some (_, _, _, _, i)) => some i
  | _ => none

/-- Probing `ErrorLocer` via `errors.As` and calling `ErrorLoc()`. -/
def probeErrorLoc (e : ErrVal) : Option String :=
  match asErrDetail e with
  | some (some (_, _, l, _, _)) => some l
  | _ => none

/-- All four capability probes succeed on the value. -/
def exposesAllFour (e : ErrVal) : Bool :=
  (probeErrorCode e).isSome && (probeErrorShow e).isSome &&
  (probeErrorID e).isSome && (probeErrorLoc e).isSome

/-- Helper: a Boolean predicate holds of the content of an `Option`,
vacuously true for `none`. -/
def optAll (p : ErrVal → Bool) : Option ErrVal → Bool
  | none => true
  | some e => p e

/-- Models `fmt.Errorf` for a format string whose arguments contain at most
one `%w` verb: `msg` is the fully formatted text; `wrapArg`, when present, is
the error wrapped via `%w`. With a `%w` argument `fmt.Errorf` returns a
`wrapError` (which has `Unwrap`), otherwise an `errorString`. -/
def fmtErrorf (msg : String) (wrapArg : Option ErrVal) : ErrVal :=
  match wrapArg with
  | some e => .wrapped msg e
  | none => .plain msg

/-- The `Error` constructor (src/werr.go lines 102-126): the type assertion
`cause.(*errDetail)` first (returning the value as-is when non-nil, untyped
nil when typed-nil), then the nil check, then construction of a fresh
`errDetail` whose `err` field is `fmt.Errorf("%w", cause)` — a `wrapError`
whose message is `cause.Error()` (hence the two constructing branches, one
per non-detail form of the cause). Equality of results models Go reference
equality: the source returns the argument pointer itself in the first branch. -/
def Error (loc id : String) (cause : Option ErrVal) : Option ErrVal :=
  match cause with
  | some (.detail c s l e i) => some (.detail c s l e i)
  | some .detailNil => none
  | none => none
  | some (.plain m) => some (.detail 0 "" loc (.wrapped m (.plain m)) id)
  | some (.wrapped m c) => some (.detail 0 "" loc (.wrapped m (.wrapped m c)) id)

/-- The `Errorf` constructor (src/werr.go lines 129-140): always builds a
fresh non-nil `*errDetail` with code 0 and empty show around
`fmt.Errorf(fmtstr, args...)`. -/
def Errorf (loc id : String) (msg : String) (wrapArg : Option ErrVal) : ErrVal :=
  .detail 0 "" loc (fmtErrorf msg wrapArg) id

/-- The `ErrorCodef` constructor (src/werr.go lines 143-155): like `Errorf`
but with the given code. -/
def ErrorCodef (code : Int) (loc id : String) (msg : String) (wrapArg : Option ErrVal) : ErrVal :=
  .detail code "" loc (fmtErrorf msg wrapArg) id

/-- The `ErrorShowf` constructor (src/werr.go lines 158-177): `shw` stands
for `fmt.Sprintf(fmtstr, args...)`; a nil cause is replaced by
`errors.New(show)`; the cause is stored as the `err` field unchanged. -/
def ErrorShowf (loc id : String) (cause : Option ErrVal) (shw : String) : ErrVal :=
  match cause with
  | none => .detail 0 shw loc (.plain shw) id
  | some c => .detail 0 shw loc c id

/-- The `ErrorCodeShowf` constructor (src/werr.go lines 180-200): like
`ErrorShowf` with the given code. -/
def ErrorCodeShowf (code : Int) (loc id : String) (cause : Option ErrVal) (shw : String) :
    ErrVal :=
  match cause with
  | none => .detail code shw loc (.plain shw) id
  | some c => .detail code shw loc c id

/-- The `ErrLoc` function (src/werr.go lines 16-29): returns nil on nil input,
otherwise `fmt.Errorf("%s:%v :: %w", file, line, err)`, a `wrapError` whose
message prefixes `err.Error()` with the call site. The outer `Option` is the
panic of `err.Error()` on a typed-nil `*errDetail` argument. -/
def ErrLoc (file : String) (line : Nat) (err : Option ErrVal) : Option (Option ErrVal) :=
  match err with
  | none => some none
  | some e => (errString e).map (fun m =>
      some (.wrapped (file ++ ":" ++ toString line ++ " :: " ++ m) e))

/-- Uppercase hex digit (0-9, A-F) for `k < 16`. `'0'` is 48, `'A'` is 65. -/
def hexDigitU (n : Nat) : Char :=
  if n < 10 then Char.ofNat (48 + n) else Char.ofNat (55 + n)

/-- Digits of `n` in base 16, most significant first, uppercase — the output
of Go's `fmt.Sprintf("%X", n)` for a non-negative integer: no sign, no
padding, and the single digit `0` for zero. -/
def toHexU (n : Nat) : List Char :=
  if _h : n < 16 then [hexDigitU n]
  else toHexU (n / 16) ++ [hexDigitU (n % 16)]
termination_by n
decreasing_by exact Nat.div_lt_self (by omega) (by omega)

/-- The `mkid` function (src/werr.go lines 45-47): `fmt.Sprintf("%X", r)`
where `r` stands for the value returned by `rand.Int63()`, a uniform random
value in `[0, 2^63)`. -/
def mkid (r : Nat) : String :=
  String.mk (toHexU r)

/-- The numeric value of one hex digit character (uppercase letters). -/
def hexVal (c : Char) : Nat :=
  if 65 ≤ c.toNat then c.toNat - 55 else c.toNat - 48

/-- The value denoted by a big-endian string of uppercase hex digits. -/
def fromHexU (l : List Char) : Nat :=
  l.foldl (fun acc c => 16 * acc + hexVal c) 0

/-- Character class of the uppercase hexadecimal digits `0-9A-F`. -/
def isUpperHexDigit (c : Char) : Bool :=
  (48 ≤ c.toNat && c.toNat ≤ 57) || (65 ≤ c.toNat && c.toNat ≤ 70)

/-- One observable action on the `http.ResponseWriter` sink. -/
inductive SinkEvent : Type where
  | setHeader (key value : String) : SinkEvent
  | writeHeader (status : Int) : SinkEvent
  | write (body : String) : SinkEvent
deriving DecidableEq

/-- The `WriteError` function (src/werr.go lines 203-240), parameterised over
the sink's write behaviour: `sink k` is the error returned by the `k`-th body
write (0-based; `none` is success). Returns `none` on a nil-receiver panic
(only reachable when a typed-nil `*errDetail` is the argument or sits in its
chain), otherwise `some (logLines, sinkEvents, ret)` where `ret` is the
function's return value. The single `asErrDetail` walk stands for the three
separate `errors.As` probes (Coder, Shower, IDer), which all find the same
first `*errDetail` since that is the only capability-bearing type here; when
one is found the show fallback, the ID-suffix write and the overwrite of
`ret` by the second `fmt.Fprintf` follow the source line by line. -/
def WriteError (sink : Nat → Option String) (err : Option ErrVal) :
    Option (List String × List SinkEvent × Option String) :=
  match err with
  | none => some ([], [], none)
  | some e =>
    match errString e with
    | none => none
    | some estr =>
      match asErrDetail e with
      | some none => none
      | some (some (c, s, _, _, i)) =>
          let status : Int := if c = 0 then 500 else c
          let showText : String := if s = "" then "internal error" else s
          some (["Error: " ++ estr],
                [SinkEvent.setHeader "Content-Type" "text/plain",
                 SinkEvent.writeHeader status,
                 SinkEvent.write showText,
                 SinkEvent.write (" [ID:" ++ i ++ "]")],
                sink 1)
      | none =>
          some (["Error: " ++ estr],
                [SinkEvent.setHeader "Content-Type" "text/plain",
                 SinkEvent.writeHeader 500,
                 SinkEvent.write "internal error"],
                sink 0)

/-- C1: for every non-nil error `e` (every `some v`, the typed-nil detail
pointer included), `Error (Error e) = Error e`: the bare wrap constructor is
idempotent. Equality of the modelled results corresponds to reference
equality in Go, since the source's re-wrap branch returns the argument
pointer itself unchanged. -/
theorem error_wrap_idempotent (v : ErrVal) (l1 i1 l2 i2 : String) :
    Error l2 i2 (Error l1 i1 (some v)) = Error l1 i1 (some v) := by
  cases v <;> rfl

/-- C6: wrapping a nil error yields nil: `Error(nil) == nil` and
`ErrLoc(nil) == nil` (no panic, no Annotated Error constructed). -/
theorem error_nil_yields_nil (l i f : String) (n : Nat) :
    Error l i none = none ∧ ErrLoc f n none = some none :=
  ⟨rfl, rfl⟩

/-- C7: `WriteError` on a nil error is a complete no-op: no log line, no sink
event (no header, no status, no body write), and it returns nil. -/
theorem writeError_nil_noop (sink : Nat → Option String) :
    WriteError sink none = some ([], [], none) :=
  rfl

/-- C9: passing a typed-nil `*errDetail` (a non-nil interface value holding a
nil pointer of the concrete annotated type) to the bare wrap constructor
returns the untyped nil error, not the typed-nil value and not a wrapper
around it. -/
theorem error_typed_nil_detail (l i : String) :
    Error l i (some ErrVal.detailNil) = none :=
  rfl

/-- C5: an Annotated Error built via `ErrorCodef 404 ...` answers 404 to the
Coder probe; one built via a constructor that never sets the code — `Error`
on a plain or `fmt.Errorf`-wrapped cause (its constructing branches),
`Errorf`, and `ErrorShowf` with or without a cause — answers 500 through the
zero-means-unset default of `ErrorCode()`. -/
theorem coder_probe_defaults (l i m s : String) (w : Option ErrVal) (c : ErrVal) :
    probeErrorCode (ErrorCodef 404 l i m w) = some 404
    ∧ (Error l i (some (ErrVal.plain m))).map probeErrorCode = some (some 500)
    ∧ (Error l i (some (ErrVal.wrapped m c))).map probeErrorCode = some (some 500)
    ∧ probeErrorCode (Errorf l i m w) = some 500
    ∧ probeErrorCode (ErrorShowf l i (some c) s) = some 500
    ∧ probeErrorCode (ErrorShowf l i none s) = some 500 := by
  refine ⟨rfl, rfl, rfl, rfl, rfl, rfl⟩

/-- C10: every Annotated Error is a non-nil `*errDetail` on its outermost
value, whichever of the five constructors built it, and a non-nil
`*errDetail` answers all four capability probes (Coder, Shower, IDer,
Locer); moreover for an error built via `Errorf` (code 0, empty show),
`WriteError` writes status 500 through the Coder default, falls back to the
generic body text because the exposed show string is empty, appends the ID
suffix as a second body write, and returns the result of that second write. -/
theorem annotated_capabilities_render (l i m s l2 i2 s2 : String) (k c : Int)
    (w co : Option ErrVal) (v ce : ErrVal) (sink : Nat → Option String) :
    optAll isDetail (Error l i (some v)) = true
    ∧ isDetail (Errorf l i m w) = true
    ∧ isDetail (ErrorCodef k l i m w) = true
    ∧ isDetail (ErrorShowf l i co s) = true
    ∧ isDetail (ErrorCodeShowf k l i co s) = true
    ∧ exposesAllFour (ErrVal.detail c s2 l2 ce i2) = true
    ∧ WriteError sink (some (Errorf l i m w)) =
        (errString (Errorf l i m w)).map (fun estr =>
          (["Error: " ++ estr],
           [SinkEvent.setHeader "Content-Type" "text/plain",
            SinkEvent.writeHeader 500,
            SinkEvent.write "internal error",
            SinkEvent.write (" [ID:" ++ i ++ "]")],
           sink 1))
    ∧ (errString (Errorf l i m w)).isSome = true := by
  refine ⟨?_, ?_, ?_, ?_, ?_, rfl, ?_, ?_⟩
  · cases v <;> rfl
  · rfl
  · rfl
  · cases co <;> rfl
  · cases co <;> rfl
  · cases w <;> rfl
  · cases w <;> rfl

/-- C3 counterexample: `Error` stores `fmt.Errorf("%w", cause)` as the `err`
field, so for the cause `errors.New("boom")` the standard unwrap of the
Annotated Error yields that `wrapError`, a different value from the original
cause — not the cause itself as the claim states. -/
theorem unwrap_not_original_cause :
    Error "l" "i" (some (ErrVal.plain "boom"))
      = some (ErrVal.detail 0 "" "l" (ErrVal.wrapped "boom" (ErrVal.plain "boom")) "i")
    ∧ errUnwrap (ErrVal.detail 0 "" "l" (ErrVal.wrapped "boom" (ErrVal.plain "boom")) "i")
        ≠ some (some (ErrVal.plain "boom")) := by
  exact ⟨rfl, by decide⟩

/-- C3 amended: the standard unwrap of an Annotated Error yields its stored
`err` field. For `ErrorShowf` and `ErrorCodeShowf` with a non-nil cause that
is exactly the original cause; for `Error` it is the single `%w` wrapper
`fmt.Errorf("%w", cause)` around the cause, so one further unwrap yields the
original cause; for `Errorf` and `ErrorCodef` it is the formatted error, and
when the format wrapped a cause via `%w`, one further unwrap yields it. -/
theorem unwrap_yields_stored_err (l i m s : String) (k : Int) (c : ErrVal) :
    errUnwrap (ErrorShowf l i (some c) s) = some (some c)
    ∧ errUnwrap (ErrorCodeShowf k l i (some c) s) = some (some c)
    ∧ (Error l i (some (ErrVal.plain m))).map errUnwrap
        = some (some (some (ErrVal.wrapped m (ErrVal.plain m))))
    ∧ errUnwrap (ErrVal.wrapped m (ErrVal.plain m)) = some (some (ErrVal.plain m))
    ∧ (Error l i (some (ErrVal.wrapped m c))).map errUnwrap
        = some (some (some (ErrVal.wrapped m (ErrVal.wrapped m c))))
    ∧ errUnwrap (ErrVal.wrapped m (ErrVal.wrapped m c)) = some (some (ErrVal.wrapped m c))
    ∧ errUnwrap (Errorf l i m (some c)) = some (some (ErrVal.wrapped m c))
    ∧ errUnwrap (ErrorCodef k l i m (some c)) = some (some (ErrVal.wrapped m c))
    ∧ errUnwrap (ErrVal.wrapped m c) = some (some c) := by
  refine ⟨rfl, rfl, rfl, rfl, rfl, rfl, rfl, rfl, rfl⟩

/-- C4: for every plain error — one with no `*errDetail` anywhere in its
unwrap chain, hence exposing none of the four capabilities — `WriteError`
logs one line with the error text, sets the content type, writes status 500,
writes exactly the body `"internal error"` with no ID suffix, and returns
the outcome of that single body write. -/
theorem render_plain_error (sink : Nat → Option String) (e : ErrVal) (m : String)
    (h1 : asErrDetail e = none) (h2 : errString e = some m) :
    WriteError sink (some e) =
      some (["Error: " ++ m],
        [SinkEvent.setHeader "Content-Type" "text/plain",
         SinkEvent.writeHeader 500,
         SinkEvent.write "internal error"],
        sink 0) := by
  simp only [WriteError, h1, h2]

/-- Witness for C4 at the concrete plain error `errors.New("boom")` and an
all-succeeding sink. -/
theorem render_plain_error_witness :
    asErrDetail (ErrVal.plain "boom") = none
    ∧ errString (ErrVal.plain "boom") = some "boom"
    ∧ WriteError (fun _ => none) (some (ErrVal.plain "boom")) =
        some (["Error: " ++ "boom"],
          [SinkEvent.setHeader "Content-Type" "text/plain",
           SinkEvent.writeHeader 500,
           SinkEvent.write "internal error"],
          none) :=
  ⟨rfl, rfl, render_plain_error (fun _ => none) (ErrVal.plain "boom") "boom" rfl rfl⟩

/-- C2 counterexample: with an error whose chain holds an IDer, a failure of
the first body write (the show text) is overwritten by the result of the
second body write (the ID suffix): here the first write fails with "boom",
the second succeeds, both writes appear in the trace, and `WriteError`
returns nil — the claim that any body-write failure is surfaced in the
return value is false on this input. -/
theorem render_swallows_first_write_failure :
    WriteError (fun n => if n = 0 then some "boom" else none)
        (some (ErrVal.detail 0 "" "h.go:1" (ErrVal.plain "x") "AB"))
      = some (["Error: errDetail: id=\"AB\", code=0, show=\"\", loc=\"h.go:1\", err: x"],
          [SinkEvent.setHeader "Content-Type" "text/plain",
           SinkEvent.writeHeader 500,
           SinkEvent.write "internal error",
           SinkEvent.write " [ID:AB]"],
          none)
    ∧ (fun n => if n = 0 then some "boom" else (none : Option String)) 0 = some "boom" := by
  exact ⟨rfl, rfl⟩

/-- C2 amended: `WriteError` returns the error of the last body write it
performs — the show-text write when no `*errDetail` (hence no IDer) is in
the chain, the ID-suffix write when one is. A failure of the show-text write
is therefore not surfaced when an ID-suffix write follows and succeeds. -/
theorem render_returns_last_write_error (sink : Nat → Option String) (e : ErrVal)
    (out : List String × List SinkEvent × Option String)
    (h : WriteError sink (some e) = some out) :
    out.2.2 = if (asErrDetail e).isSome then sink 1 else sink 0 := by
  simp only [WriteError] at h
  rcases he : errString e with _ | estr <;> rw [he] at h
  · simp at h
  · rcases hd : asErrDetail e with _ | (_ | d) <;> rw [hd] at h <;>
      simp only [Option.some.injEq] at h
    · rw [← h]
      simp [hd]
    · exact absurd h (by simp)
    · rw [← h]
      simp [hd]

/-- Witness for the amended C2 at a concrete plain error and an
all-succeeding sink: the return value is the result of body write 0. -/
theorem render_returns_last_write_error_witness :
    (((["Error: x"],
        [SinkEvent.setHeader "Content-Type" "text/plain",
         SinkEvent.writeHeader 500,
         SinkEvent.write "internal error"],
        (none : Option String)) :
        List String × List SinkEvent × Option String)).2.2
      = if (asErrDetail (ErrVal.plain "x")).isSome then (fun _ => (none : Option String)) 1
        else (fun _ => (none : Option String)) 0 :=
  render_returns_last_write_error (fun _ => none) (ErrVal.plain "x") _ rfl

theorem toHexU_ne_nil (n : Nat) : toHexU n ≠ [] := by
  rw [toHexU]
  split <;> simp

theorem hexVal_hexDigitU (k : Nat) (hk : k < 16) : hexVal (hexDigitU k) = k := by
  interval_cases k <;> decide

theorem isUpperHexDigit_hexDigitU (k : Nat) (hk : k < 16) :
    isUpperHexDigit (hexDigitU k) = true := by
  interval_cases k <;> decide

theorem fromHexU_append_one (l : List Char) (c : Char) :
    fromHexU (l ++ [c]) = 16 * fromHexU l + hexVal c := by
  simp [fromHexU, List.foldl_append]

theorem fromHexU_toHexU : ∀ n : Nat, fromHexU (toHexU n) = n := by
  intro n
  induction n using Nat.strong_induction_on with
  | _ n ih =>
    rw [toHexU]
    split
    next hlt =>
      have := hexVal_hexDigitU n hlt
      simp [fromHexU, this]
    next hlt =>
      rw [fromHexU_append_one, ih (n / 16) (by omega),
        hexVal_hexDigitU _ (Nat.mod_lt _ (by omega))]
      omega

theorem toHexU_all_upper_hex : ∀ n : Nat, ∀ c ∈ toHexU n, isUpperHexDigit c = true := by
  intro n
  induction n using Nat.strong_induction_on with
  | _ n ih =>
    rw [toHexU]
    split
    next hlt =>
      intro c hc
      simp only [List.mem_singleton] at hc
      subst hc
      exact isUpperHexDigit_hexDigitU n hlt
    next hlt =>
      intro c hc
      rw [List.mem_append] at hc
      rcases hc with h | h
      · exact ih (n / 16) (by omega) c h
      · simp only [List.mem_singleton] at h
        subst h
        exact isUpperHexDigit_hexDigitU _ (Nat.mod_lt _ (by omega))

theorem toHexU_head_ne_zero : ∀ n : Nat, n ≠ 0 → (toHexU n).head? ≠ some '0' := by
  intro n
  induction n using Nat.strong_induction_on with
  | _ n ih =>
    intro hn
    rw [toHexU]
    split
    next hlt =>
      intro hx
      simp only [List.head?, Option.some.injEq] at hx
      revert hx hn
      interval_cases n <;> decide
    next hlt =>
      have hdivlt : n / 16 < n := by omega
      have hdivne : n / 16 ≠ 0 := by omega
      rcases hl : toHexU (n / 16) with _ | ⟨a, t⟩
      · exact absurd hl (toHexU_ne_nil _)
      · have := ih (n / 16) hdivlt hdivne
        rw [hl] at this
        simpa using this

/-- C8: `mkid` is Go's `%X` of the value returned by `rand.Int63()`: for
every value `r` in the generator's range `[0, 2^63)`, the ID consists only
of uppercase hexadecimal digits, denotes exactly `r` (hence a value in
`[0, 2^63)`), and carries no zero-padding: for nonzero `r` the leading digit
is not `'0'`, so the width is exactly the number of hex digits of `r`. -/
theorem mkid_uppercase_hex (r : Nat) (h : r < 2 ^ 63) :
    (∀ c ∈ (mkid r).data, isUpperHexDigit c = true)
    ∧ fromHexU (mkid r).data = r
    ∧ fromHexU (mkid r).data < 2 ^ 63
    ∧ (r ≠ 0 → (mkid r).data.head? ≠ some '0') := by
  refine ⟨toHexU_all_upper_hex r, fromHexU_toHexU r, ?_, toHexU_head_ne_zero r⟩
  show fromHexU (toHexU r) < 2 ^ 63
  rw [fromHexU_toHexU r]
  exact h

/-- Witness for C8 at the concrete generator output 2748 (hex ABC). -/
theorem mkid_uppercase_hex_witness :
    2748 < 2 ^ 63
    ∧ ((∀ c ∈ (mkid 2748).data, isUpperHexDigit c = true)
       ∧ fromHexU (mkid 2748).data = 2748
       ∧ fromHexU (mkid 2748).data < 2 ^ 63
       ∧ (2748 ≠ 0 → (mkid 2748).data.head? ≠ some '0')) :=
  ⟨by decide, mkid_uppercase_hex 2748 (by decide)⟩

end Werr
